import Mathlib

/-!
Verification of the congressional-trading-bot core (src/server.js) against its
natural-language specification.  Numeric JavaScript values are modelled as
rationals; the display formatting of rationale strings (toLocaleString and
toFixed in the source) is abstracted by a plain toString rendering shared by
the source embedding and the spec reference definition, since no claim
depends on number formatting.  External time and network are modelled as
explicit parameters (a recency predicate for the feed date filter, a quote
oracle for price lookups).
-/

/-- One tracked actor entry of the TOP_PERFORMERS table (weight and success rate). -/
structure Performer where
  weight : ℚ
  successRate : ℚ
deriving Repr, DecidableEq

/-- One position of the user portfolio (shares, targetAllocation, currentValue, currentPrice). -/
structure Position where
  shares : ℚ
  targetAllocation : ℚ
  currentValue : ℚ
  currentPrice : ℚ
deriving Repr, DecidableEq

/-- The userPortfolio object: total value, cash, and the ticker-to-position map
(modelled as an association list in insertion order). -/
structure PortfolioRec where
  totalValue : ℚ
  cash : ℚ
  positions : List (String × Position)
deriving Repr, DecidableEq

/-- Key lookup in an association list, modelling JavaScript object property access. -/
def lookupKey {β : Type} : List (String × β) → String → Option β
  | [], _ => none
  | (k, v) :: rest, s => if s = k then some v else lookupKey rest s

/-- The TOP_PERFORMERS constant from src/server.js lines 46-53. -/
def TOP_PERFORMERS : List (String × Performer) :=
  [("Nancy Pelosi", ⟨1, 89/100⟩),
   ("David Rouzer", ⟨95/100, 87/100⟩),
   ("Debbie Wasserman Schultz", ⟨85/100, 82/100⟩),
   ("Ron Wyden", ⟨8/10, 84/100⟩),
   ("Roger Williams", ⟨75/100, 79/100⟩),
   ("Josh Gottheimer", ⟨9/10, 85/100⟩)]

/-- The initial userPortfolio value from src/server.js lines 32-43
(default total value 1000 when the environment variable is unset). -/
def portfolioInit : PortfolioRec :=
  { totalValue := 1000
    cash := 100
    positions :=
      [("QQQ", ⟨0, 25/100, 250, 0⟩),
       ("NVDA", ⟨0, 20/100, 200, 0⟩),
       ("MSFT", ⟨0, 20/100, 200, 0⟩),
       ("AAPL", ⟨0, 15/100, 150, 0⟩),
       ("GOOGL", ⟨0, 10/100, 100, 0⟩)] }

/-- Update of one position by updatePortfolioValues (src/server.js lines 122-133):
on a successful quote the price is stored, shares are bootstrapped from the prior
value when zero, and the value is recomputed; on a failed quote (none) the entry
is left untouched. -/
def updatePosition (quotes : String → Option ℚ) (entry : String × Position) : String × Position :=
  match quotes entry.1 with
  | none => entry
  | some price =>
    let p := entry.2
    let shares := if p.shares = 0 then p.currentValue / price else p.shares
    (entry.1, { p with currentPrice := price, shares := shares, currentValue := shares * price })

/-- updatePortfolioValues (src/server.js lines 119-146): refresh every position
from the quote oracle, then recompute the total as position sum plus cash. -/
def updatePortfolioValues (quotes : String → Option ℚ) (pf : PortfolioRec) : PortfolioRec :=
  let positions := pf.positions.map (updatePosition quotes)
  let totalPositionValue := (positions.map (fun e => e.2.currentValue)).sum
  { totalValue := totalPositionValue + pf.cash
    cash := pf.cash
    positions := positions }

/-- A recommendation object as built by calculatePositionAdjustment. -/
structure Recommendation where
  symbol : String
  action : String
  currentPrice : ℚ
  recommendedAmount : ℚ
  sharesToTrade : ℚ
  reason : String
  confidence : ℚ
deriving Repr, DecidableEq

/-- The initial recommendation object of src/server.js lines 240-248 (HOLD with zeroes). -/
def initRecommendation (symbol : String) (currentPrice : ℚ) : Recommendation :=
  { symbol := symbol
    action := "HOLD"
    currentPrice := currentPrice
    recommendedAmount := 0
    sharesToTrade := 0
    reason := ""
    confidence := 0 }

/-- Rationale rendering for a BUY (src/server.js line 262); numeric display
formatting is abstracted by toString. -/
def buyReason (traderName : String) (amount currentAllocation newTarget : ℚ) : String :=
  traderName ++ " bought $" ++ toString amount ++ " - increasing allocation from "
    ++ toString (currentAllocation * 100) ++ "% to " ++ toString (newTarget * 100) ++ "%"

/-- Rationale rendering for a SELL (src/server.js line 275). -/
def sellReason (traderName : String) (amount currentAllocation newTarget : ℚ) : String :=
  traderName ++ " sold $" ++ toString amount ++ " - reducing allocation from "
    ++ toString (currentAllocation * 100) ++ "% to " ++ toString (newTarget * 100) ++ "%"

/-- Trade impact formula of src/server.js line 251. -/
def tradeImpactOf (amount traderWeight : ℚ) : ℚ :=
  min ((amount / 1000000) * traderWeight) (15/100)

/-- Purchase-branch target allocation of src/server.js line 254. -/
def newTargetPurchase (targetAllocation tradeImpact : ℚ) : ℚ :=
  min (targetAllocation + tradeImpact) (35/100)

/-- Sale-branch target allocation of src/server.js line 267. -/
def newTargetSale (targetAllocation tradeImpact : ℚ) : ℚ :=
  max (targetAllocation - tradeImpact) (5/100)

/-- calculatePositionAdjustment (src/server.js lines 234-281).  Returns none when
the symbol has no position (the JavaScript would fault on the property access);
the JavaScript weight default "or 0.5" is the falsy-coalescing operator, hence
the zero test on a found weight. -/
def calculatePositionAdjustment (pf : PortfolioRec)
    (symbol traderAction traderName : String) (amount : ℚ) : Option Recommendation :=
  match lookupKey pf.positions symbol with
  | none => none
  | some position =>
    let traderWeight : ℚ :=
      match lookupKey TOP_PERFORMERS traderName with
      | some perf => if perf.weight = 0 then 1/2 else perf.weight
      | none => 1/2
    let currentAllocation := position.currentValue / pf.totalValue
    let targetAllocation := position.targetAllocation
    let tradeImpact := tradeImpactOf amount traderWeight
    if traderAction = "Purchase" ∨ traderAction = "Buy" then
      let newTargetAllocation := newTargetPurchase targetAllocation tradeImpact
      let targetValue := newTargetAllocation * pf.totalValue
      let additionalAmount := targetValue - position.currentValue
      if additionalAmount > 10 then
        some { initRecommendation symbol position.currentPrice with
                action := "BUY"
                recommendedAmount := additionalAmount
                sharesToTrade := additionalAmount /
                  (if position.currentPrice = 0 then 100 else position.currentPrice)
                reason := buyReason traderName amount currentAllocation newTargetAllocation
                confidence := traderWeight * (9/10) }
      else some (initRecommendation symbol position.currentPrice)
    else if traderAction = "Sale" ∨ traderAction = "Sell" then
      let newTargetAllocation := newTargetSale targetAllocation tradeImpact
      let targetValue := newTargetAllocation * pf.totalValue
      let reductionAmount := position.currentValue - targetValue
      if reductionAmount > 10 then
        some { initRecommendation symbol position.currentPrice with
                action := "SELL"
                recommendedAmount := reductionAmount
                sharesToTrade := reductionAmount /
                  (if position.currentPrice = 0 then 100 else position.currentPrice)
                reason := sellReason traderName amount currentAllocation newTargetAllocation
                confidence := traderWeight * (8/10) }
      else some (initRecommendation symbol position.currentPrice)
    else some (initRecommendation symbol position.currentPrice)

/-- Reference rebalancing computation following the wording of spec section 4.2:
traderWeight is the tracked actor weight, or 0.5 if the actor is untracked;
tradeImpact, the purchase and sale branches with the 0.35 ceiling and 0.05
floor, the noise floor of 10 currency units, the price fallback of 100 when
the price is unknown, and the 0.9 and 0.8 confidence multipliers are as the
spec states them. -/
def referenceAdjustment (pf : PortfolioRec)
    (symbol traderAction traderName : String) (amount : ℚ) : Option Recommendation :=
  match lookupKey pf.positions symbol with
  | none => none
  | some position =>
    let traderWeight : ℚ :=
      match lookupKey TOP_PERFORMERS traderName with
      | some perf => perf.weight
      | none => 1/2
    let currentAllocation := position.currentValue / pf.totalValue
    let targetAllocation := position.targetAllocation
    let tradeImpact := min ((amount / 1000000) * traderWeight) (15/100)
    if traderAction = "Purchase" ∨ traderAction = "Buy" then
      let newTargetAllocation := min (targetAllocation + tradeImpact) (35/100)
      let targetValue := newTargetAllocation * pf.totalValue
      let additionalAmount := targetValue - position.currentValue
      if additionalAmount > 10 then
        some { initRecommendation symbol position.currentPrice with
                action := "BUY"
                recommendedAmount := additionalAmount
                sharesToTrade := additionalAmount /
                  (if position.currentPrice = 0 then 100 else position.currentPrice)
                reason := buyReason traderName amount currentAllocation newTargetAllocation
                confidence := traderWeight * (9/10) }
      else some (initRecommendation symbol position.currentPrice)
    else if traderAction = "Sale" ∨ traderAction = "Sell" then
      let newTargetAllocation := max (targetAllocation - tradeImpact) (5/100)
      let targetValue := newTargetAllocation * pf.totalValue
      let reductionAmount := position.currentValue - targetValue
      if reductionAmount > 10 then
        some { initRecommendation symbol position.currentPrice with
                action := "SELL"
                recommendedAmount := reductionAmount
                sharesToTrade := reductionAmount /
                  (if position.currentPrice = 0 then 100 else position.currentPrice)
                reason := sellReason traderName amount currentAllocation newTargetAllocation
                confidence := traderWeight * (8/10) }
      else some (initRecommendation symbol position.currentPrice)
    else some (initRecommendation symbol position.currentPrice)

/-- A normalized candidate trade as produced by the adapters
(the object shape built at src/server.js lines 162-169 and 198-205). -/
structure Candidate where
  Representative : String
  Ticker : String
  Transaction : String
  Amount : ℚ
  TransactionDate : String
  DisclosureDate : String
deriving Repr, DecidableEq

/-- A row of the trades table (src/server.js lines 57-67, columns used by the pipeline). -/
structure TradeRow where
  traderName : String
  symbol : String
  transactionType : String
  amount : ℚ
  tradeDate : String
  disclosureDate : String
deriving Repr, DecidableEq

/-- The trades-table row inserted for an accepted candidate (src/server.js lines 401-405). -/
def mkRow (c : Candidate) : TradeRow :=
  { traderName := c.Representative
    symbol := c.Ticker
    transactionType := c.Transaction
    amount := c.Amount
    tradeDate := c.TransactionDate
    disclosureDate := c.DisclosureDate }

/-- The duplicate-check predicate of the SELECT at src/server.js lines 391-395:
a stored row matches a candidate when trader name, symbol, trade date and
amount coincide. -/
def matchesIdentity (t : TradeRow) (c : Candidate) : Bool :=
  decide (t.traderName = c.Representative ∧ t.symbol = c.Ticker
    ∧ t.tradeDate = c.TransactionDate ∧ t.amount = c.Amount)

/-- Existence of a stored trade matching the identity tuple of a candidate. -/
def hasMatch (rows : List TradeRow) (c : Candidate) : Bool :=
  rows.any fun t => matchesIdentity t c

/-- A raw record of the House Stock Watcher feed before normalization
(src/server.js lines 156-169); a non-numeric amount field parses to none. -/
structure RawDisclosure where
  representative : String
  ticker : String
  transaction_type : String
  amount : Option ℚ
  transaction_date : String
  disclosure_date : String
deriving Repr, DecidableEq

/-- Normalization of one raw feed record (src/server.js lines 162-169);
parseFloat followed by the zero fallback becomes getD 0. -/
def normalizeDisclosure (r : RawDisclosure) : Candidate :=
  { Representative := r.representative
    Ticker := r.ticker
    Transaction := r.transaction_type
    Amount := r.amount.getD 0
    TransactionDate := r.transaction_date
    DisclosureDate := r.disclosure_date }

/-- fetchHouseStockWatcher (src/server.js lines 151-184): the feed is filtered by
the seven-day recency test (a time-dependent predicate, abstracted as the
parameter recent), normalized, and then filtered to records with a nonempty
representative and ticker, a tracked actor and a tracked portfolio ticker. -/
def fetchHouseStockWatcher (recent : RawDisclosure → Bool) (pf : PortfolioRec)
    (feed : List RawDisclosure) : List Candidate :=
  ((feed.filter recent).map normalizeDisclosure).filter fun c =>
    decide (c.Representative ≠ "") && decide (c.Ticker ≠ "")
      && (lookupKey TOP_PERFORMERS c.Representative).isSome
      && (lookupKey pf.positions c.Ticker).isSome

/-- A row of the manual_trades table (src/server.js lines 82-91). -/
structure ManualRow where
  traderName : String
  symbol : String
  transactionType : String
  amount : ℚ
  tradeDate : String
  processed : Bool
deriving Repr, DecidableEq

/-- Normalization of one manual trade (src/server.js lines 198-205); the
disclosure date is the current date, passed as the parameter today. -/
def normalizeManual (today : String) (r : ManualRow) : Candidate :=
  { Representative := r.traderName
    Ticker := r.symbol
    Transaction := r.transactionType
    Amount := r.amount
    TransactionDate := r.tradeDate
    DisclosureDate := today }

/-- fetchManualTrades (src/server.js lines 187-213): unprocessed rows are
returned newest first (created_at DESC over rows given in insertion order) and
every unprocessed row is marked processed.  Note that no tracked-actor or
tracked-ticker filter is applied to manual trades. -/
def fetchManualTrades (today : String) (rows : List ManualRow) :
    List Candidate × List ManualRow :=
  (((rows.filter fun r => !r.processed).reverse).map (normalizeManual today),
   rows.map fun r => { r with processed := true })

/-- fetchCongressionalTrades (src/server.js lines 216-231): feed candidates
followed by manual candidates. -/
def fetchCongressionalTrades (recent : RawDisclosure → Bool) (today : String)
    (pf : PortfolioRec) (feed : List RawDisclosure) (manual : List ManualRow) :
    List Candidate :=
  fetchHouseStockWatcher recent pf feed ++ (fetchManualTrades today manual).1

/-- The mutable state touched by one processNewTrades cycle: the trades table,
the recommendations table, the notifications actually dispatched, and the
portfolio object. -/
structure PipelineState where
  storedTrades : List TradeRow
  storedRecs : List Recommendation
  dispatched : List Recommendation
  pfState : PortfolioRec
deriving Repr, DecidableEq

/-- Processing of one candidate inside the processNewTrades loop
(src/server.js lines 388-424): skip when a stored trade matches the identity
tuple; otherwise insert the trade row, and only when both the actor and the
ticker are tracked refresh the portfolio, compute the recommendation, and
dispatch plus persist it exactly when the action is not HOLD and the
confidence exceeds 0.6.  The flag of the result records whether the candidate
was newly accepted. -/
def processTrade (q : String → Option ℚ) (s : PipelineState) (c : Candidate) :
    PipelineState × Bool :=
  if hasMatch s.storedTrades c then (s, false)
  else if (lookupKey TOP_PERFORMERS c.Representative).isSome
      && (lookupKey s.pfState.positions c.Ticker).isSome then
    match calculatePositionAdjustment (updatePortfolioValues q s.pfState)
        c.Ticker c.Transaction c.Representative c.Amount with
    | some rec =>
      if rec.action ≠ "HOLD" ∧ rec.confidence > 6/10 then
        ({ storedTrades := s.storedTrades ++ [mkRow c]
           storedRecs := s.storedRecs ++ [rec]
           dispatched := s.dispatched ++ [rec]
           pfState := updatePortfolioValues q s.pfState }, true)
      else
        ({ storedTrades := s.storedTrades ++ [mkRow c]
           storedRecs := s.storedRecs
           dispatched := s.dispatched
           pfState := updatePortfolioValues q s.pfState }, true)
    | none =>
      ({ storedTrades := s.storedTrades ++ [mkRow c]
         storedRecs := s.storedRecs
         dispatched := s.dispatched
         pfState := updatePortfolioValues q s.pfState }, true)
  else ({ s with storedTrades := s.storedTrades ++ [mkRow c] }, true)

/-- The processNewTrades loop over a candidate list (src/server.js lines
386-425), returning the final state and the newly accepted candidates in
encounter order. -/
def runPipeline (q : String → Option ℚ) :
    List Candidate → PipelineState → PipelineState × List Candidate
  | [], s => (s, [])
  | c :: cs, s =>
    ((runPipeline q cs (processTrade q s c).1).1,
     (if (processTrade q s c).2 then [c] else [])
       ++ (runPipeline q cs (processTrade q s c).1).2)

/-- The pipeline state at process start: empty tables and the initial portfolio. -/
def stateInit : PipelineState :=
  { storedTrades := []
    storedRecs := []
    dispatched := []
    pfState := portfolioInit }

theorem lookupKey_cons {β : Type} (e : String × β) (es : List (String × β)) (t : String) :
    lookupKey (e :: es) t = if t = e.1 then some e.2 else lookupKey es t := rfl

theorem updatePosition_fst (q : String → Option ℚ) (e : String × Position) :
    (updatePosition q e).1 = e.1 := by
  unfold updatePosition
  cases q e.1 <;> rfl

theorem lookupKey_map_updatePosition (q : String → Option ℚ)
    (l : List (String × Position)) (t : String) (p : Position)
    (h : lookupKey l t = some p) :
    lookupKey (l.map (updatePosition q)) t = some (updatePosition q (t, p)).2 := by
  induction l with
  | nil => simp [lookupKey] at h
  | cons e es ih =>
    rw [lookupKey_cons] at h
    rw [List.map_cons, lookupKey_cons, updatePosition_fst]
    by_cases hte : t = e.1
    · rw [if_pos hte] at h
      rw [if_pos hte]
      cases h
      subst hte
      rfl
    · rw [if_neg hte] at h
      rw [if_neg hte]
      exact ih h

theorem lookupKey_mem {β : Type} (l : List (String × β)) (n : String) (b : β)
    (h : lookupKey l n = some b) : b ∈ l.map Prod.snd := by
  induction l with
  | nil => simp [lookupKey] at h
  | cons e es ih =>
    rw [lookupKey_cons] at h
    by_cases hne : n = e.1
    · rw [if_pos hne] at h
      cases h
      simp
    · rw [if_neg hne] at h
      simp [ih h]

/-- C7: after every completed price refresh, with any pattern of per-ticker
quote successes and failures, the portfolio total equals the cash balance plus
the sum of the position values (exactly, hence within any tolerance). -/
theorem refresh_total_eq_cash_add_positions (q : String → Option ℚ) (pf : PortfolioRec) :
    (updatePortfolioValues q pf).totalValue =
      (updatePortfolioValues q pf).cash
        + (((updatePortfolioValues q pf).positions.map fun e => e.2.currentValue).sum) := by
  simp [updatePortfolioValues, add_comm]

/-- C9: a ticker whose price fetch returns none keeps its position entirely
unchanged by the refresh, stale price, shares and value retained. -/
theorem refresh_keeps_failed_ticker (q : String → Option ℚ) (pf : PortfolioRec)
    (t : String) (p : Position) (hq : q t = none)
    (hp : lookupKey pf.positions t = some p) :
    lookupKey (updatePortfolioValues q pf).positions t = some p := by
  have h1 : lookupKey (pf.positions.map (updatePosition q)) t
      = some (updatePosition q (t, p)).2 :=
    lookupKey_map_updatePosition q pf.positions t p hp
  have h2 : updatePosition q (t, p) = (t, p) := by
    unfold updatePosition
    rw [hq]
  rw [show (updatePortfolioValues q pf).positions = pf.positions.map (updatePosition q) from rfl]
  rw [h1, h2]

/-- Witness for C9, the Scenario 5 instance: the oracle fails on AAPL, whose
position held price 50, 3 shares, value 150; after the refresh the position is
unchanged and still contributes 150 to the recomputed total. -/
theorem refresh_keeps_failed_ticker_witness :
    ((fun _ => (none : Option ℚ)) "AAPL" = none)
    ∧ lookupKey (PortfolioRec.mk 1000 100 [("AAPL", ⟨3, 15/100, 150, 50⟩)]).positions "AAPL"
        = some ⟨3, 15/100, 150, 50⟩
    ∧ lookupKey (updatePortfolioValues (fun _ => none)
        (PortfolioRec.mk 1000 100 [("AAPL", ⟨3, 15/100, 150, 50⟩)])).positions "AAPL"
        = some ⟨3, 15/100, 150, 50⟩
    ∧ (updatePortfolioValues (fun _ => none)
        (PortfolioRec.mk 1000 100 [("AAPL", ⟨3, 15/100, 150, 50⟩)])).totalValue = 250 :=
  ⟨rfl, by rfl,
   refresh_keeps_failed_ticker (fun _ => none)
     (PortfolioRec.mk 1000 100 [("AAPL", ⟨3, 15/100, 150, 50⟩)]) "AAPL"
     ⟨3, 15/100, 150, 50⟩ rfl (by rfl),
   by norm_num [updatePortfolioValues, updatePosition]⟩

theorem performer_weight_ne_zero :
    ∀ p ∈ TOP_PERFORMERS.map Prod.snd, p.weight ≠ 0 := by
  intro p hp
  fin_cases hp <;> norm_num

/-- C1: on every input, calculatePositionAdjustment agrees with the reference
definition written from the spec wording; in particular the falsy-coalescing
weight default of the source coincides with the spec weight rule because no
tracked actor has weight zero. -/
theorem calculatePositionAdjustment_matches_spec (pf : PortfolioRec)
    (symbol traderAction traderName : String) (amount : ℚ) :
    calculatePositionAdjustment pf symbol traderAction traderName amount
      = referenceAdjustment pf symbol traderAction traderName amount := by
  unfold calculatePositionAdjustment referenceAdjustment
  cases hpos : lookupKey pf.positions symbol with
  | none => rfl
  | some position =>
    cases hw : lookupKey TOP_PERFORMERS traderName with
    | none => rfl
    | some perf =>
      have hne : perf.weight ≠ 0 :=
        performer_weight_ne_zero perf (lookupKey_mem TOP_PERFORMERS traderName perf hw)
      simp only [tradeImpactOf, newTargetPurchase, newTargetSale, if_neg hne]

theorem matchesIdentity_mkRow_self (c : Candidate) : matchesIdentity (mkRow c) c = true := by
  simp [matchesIdentity, mkRow]

theorem processTrade_storedTrades (q : String → Option ℚ) (s : PipelineState) (c : Candidate) :
    (processTrade q s c).1.storedTrades =
      if hasMatch s.storedTrades c then s.storedTrades
      else s.storedTrades ++ [mkRow c] := by
  unfold processTrade
  split
  · rfl
  · split
    · split
      · split <;> rfl
      · rfl
    · rfl

theorem processTrade_accepts (q : String → Option ℚ) (s : PipelineState) (c : Candidate) :
    (processTrade q s c).2 = !(hasMatch s.storedTrades c) := by
  unfold processTrade
  cases hB : hasMatch s.storedTrades c with
  | true => simp
  | false =>
    simp only [Bool.false_eq_true, if_false, Bool.not_false]
    split
    · split
      · split <;> rfl
      · rfl
    · rfl

theorem processTrade_dup (q : String → Option ℚ) (s : PipelineState) (c : Candidate)
    (h : hasMatch s.storedTrades c = true) : processTrade q s c = (s, false) := by
  unfold processTrade
  simp [h]

theorem hasMatch_mono (q : String → Option ℚ) (s : PipelineState) (c c2 : Candidate)
    (h : hasMatch s.storedTrades c2 = true) :
    hasMatch (processTrade q s c).1.storedTrades c2 = true := by
  rw [processTrade_storedTrades]
  split
  · exact h
  · unfold hasMatch at h ⊢
    rw [List.any_append, h, Bool.true_or]

theorem hasMatch_after (q : String → Option ℚ) (s : PipelineState) (c : Candidate) :
    hasMatch (processTrade q s c).1.storedTrades c = true := by
  rw [processTrade_storedTrades]
  by_cases h : hasMatch s.storedTrades c
  · simp [h]
  · rw [if_neg h]
    unfold hasMatch
    rw [List.any_append]
    simp [hasMatch, matchesIdentity_mkRow_self]

theorem runPipeline_hasMatch_mono (q : String → Option ℚ) (cs : List Candidate)
    (c2 : Candidate) :
    ∀ s : PipelineState, hasMatch s.storedTrades c2 = true →
      hasMatch (runPipeline q cs s).1.storedTrades c2 = true := by
  induction cs with
  | nil => intro s h; exact h
  | cons c cs ih =>
    intro s h
    exact ih (processTrade q s c).1 (hasMatch_mono q s c c2 h)

theorem runPipeline_seen (q : String → Option ℚ) (cs : List Candidate) :
    ∀ s : PipelineState, ∀ c ∈ cs,
      hasMatch (runPipeline q cs s).1.storedTrades c = true := by
  induction cs with
  | nil => intro s c hc; cases hc
  | cons c0 cs ih =>
    intro s c hc
    rcases List.mem_cons.mp hc with hc0 | hcs
    · subst hc0
      exact runPipeline_hasMatch_mono q cs c (processTrade q s c).1 (hasMatch_after q s c)
    · exact ih (processTrade q s c0).1 c hcs

theorem runPipeline_all_dup (q : String → Option ℚ) (cs : List Candidate) :
    ∀ s : PipelineState, (∀ c ∈ cs, hasMatch s.storedTrades c = true) →
      (runPipeline q cs s).2 = [] := by
  induction cs with
  | nil => intro s _; rfl
  | cons c cs ih =>
    intro s h
    have hc : hasMatch s.storedTrades c = true := h c (List.mem_cons_self c cs)
    have hd := processTrade_dup q s c hc
    simp only [runPipeline, hd]
    rw [ih s fun c2 hm => h c2 (List.mem_cons_of_mem c hm)]
    rfl

/-- C4: ingestion is idempotent, with no hypothesis on the starting state or
the candidate list: after one full run of the processNewTrades loop, a second
run over the identical candidate list accepts zero trades. -/
theorem ingest_idempotent (q : String → Option ℚ) (cs : List Candidate) (s : PipelineState) :
    (runPipeline q cs (runPipeline q cs s).1).2 = [] :=
  runPipeline_all_dup q cs (runPipeline q cs s).1 fun c hc => runPipeline_seen q cs s c hc

/-- The deduplication identity tuple of the spec: actor name, ticker, trade
date and amount, with disclosure date and transaction kind unconstrained. -/
def sameIdentityTuple (c1 c2 : Candidate) : Prop :=
  c1.Representative = c2.Representative ∧ c1.Ticker = c2.Ticker
    ∧ c1.TransactionDate = c2.TransactionDate ∧ c1.Amount = c2.Amount

/-- C3: a candidate is rejected as a duplicate exactly when a stored trade
matches its identity tuple, and of two fresh candidates sharing the tuple
(regardless of disclosure date or transaction kind) exactly the first is
accepted and persisted. -/
theorem dedup_by_identity_tuple (q : String → Option ℚ) (s : PipelineState)
    (c1 c2 c : Candidate) (htup : sameIdentityTuple c1 c2)
    (hnew : hasMatch s.storedTrades c1 = false) :
    (runPipeline q [c1, c2] s).2 = [c1]
    ∧ (runPipeline q [c1, c2] s).1.storedTrades = s.storedTrades ++ [mkRow c1]
    ∧ ((processTrade q s c).2 = false ↔ hasMatch s.storedTrades c = true) := by
  obtain ⟨h1, h2, h3, h4⟩ := htup
  have hacc : (processTrade q s c1).2 = true := by
    rw [processTrade_accepts, hnew]; rfl
  have hst : (processTrade q s c1).1.storedTrades = s.storedTrades ++ [mkRow c1] := by
    rw [processTrade_storedTrades, if_neg (by simp [hnew])]
  have hm2 : hasMatch (processTrade q s c1).1.storedTrades c2 = true := by
    rw [hst]
    unfold hasMatch
    rw [List.any_append]
    have : matchesIdentity (mkRow c1) c2 = true := by
      simp [matchesIdentity, mkRow, h1, h2, h3, h4]
    simp [hasMatch, this]
  have hd2 := processTrade_dup q (processTrade q s c1).1 c2 hm2
  refine ⟨?_, ?_, ?_⟩
  · simp only [runPipeline, hd2, hacc]
    rfl
  · simp only [runPipeline, hd2, hacc]
    exact hst
  · rw [processTrade_accepts]
    cases hasMatch s.storedTrades c <;> simp

/-- Witness for C3: two fresh candidates identical in actor, ticker, trade date
and amount but with different disclosure dates and different transaction kinds;
exactly the first is accepted and persisted from the empty starting state. -/
theorem dedup_by_identity_tuple_witness :
    (runPipeline (fun _ => none)
        [{ Representative := "Nancy Pelosi", Ticker := "NVDA", Transaction := "Purchase",
           Amount := 500000, TransactionDate := "2025-01-02", DisclosureDate := "2025-01-08" },
         { Representative := "Nancy Pelosi", Ticker := "NVDA", Transaction := "Sale",
           Amount := 500000, TransactionDate := "2025-01-02", DisclosureDate := "2025-01-10" }]
        stateInit).2
      = [{ Representative := "Nancy Pelosi", Ticker := "NVDA", Transaction := "Purchase",
           Amount := 500000, TransactionDate := "2025-01-02", DisclosureDate := "2025-01-08" }] :=
  (dedup_by_identity_tuple (fun _ => none) stateInit
    { Representative := "Nancy Pelosi", Ticker := "NVDA", Transaction := "Purchase",
      Amount := 500000, TransactionDate := "2025-01-02", DisclosureDate := "2025-01-08" }
    { Representative := "Nancy Pelosi", Ticker := "NVDA", Transaction := "Sale",
      Amount := 500000, TransactionDate := "2025-01-02", DisclosureDate := "2025-01-10" }
    { Representative := "Nancy Pelosi", Ticker := "NVDA", Transaction := "Purchase",
      Amount := 500000, TransactionDate := "2025-01-02", DisclosureDate := "2025-01-08" }
    ⟨rfl, rfl, rfl, rfl⟩ rfl).1

/-- C2 amended: for a fresh, tracked candidate whose recommendation is
computed, the recommendation is dispatched exactly when its action is not HOLD
and its confidence exceeds 0.6, and it is persisted to the recommendation
store exactly under the same condition, so below-threshold recommendations are
neither dispatched nor persisted. -/
theorem dispatch_gate_amended (q : String → Option ℚ) (s : PipelineState) (c : Candidate)
    (rec : Recommendation)
    (hnew : hasMatch s.storedTrades c = false)
    (htrk : ((lookupKey TOP_PERFORMERS c.Representative).isSome
        && (lookupKey s.pfState.positions c.Ticker).isSome) = true)
    (hrec : calculatePositionAdjustment (updatePortfolioValues q s.pfState)
        c.Ticker c.Transaction c.Representative c.Amount = some rec) :
    (processTrade q s c).1.dispatched
        = s.dispatched ++ (if rec.action ≠ "HOLD" ∧ rec.confidence > 6/10 then [rec] else [])
    ∧ (processTrade q s c).1.storedRecs
        = s.storedRecs ++ (if rec.action ≠ "HOLD" ∧ rec.confidence > 6/10 then [rec] else []) := by
  unfold processTrade
  rw [if_neg (by simp [hnew]), if_pos htrk, hrec]
  by_cases hg : rec.action ≠ "HOLD" ∧ rec.confidence > 6/10
  · simp [hg]
  · simp [hg]

/-- C2 counterexample: the tracked trade Nancy Pelosi Purchase of 0 on QQQ has
its recommendation computed (a HOLD), the trade itself is accepted, yet the
recommendation store stays empty, so a computed recommendation below the
dispatch threshold is not persisted. -/
theorem dispatch_gate_counterexample :
    calculatePositionAdjustment (updatePortfolioValues (fun _ => none) portfolioInit)
        "QQQ" "Purchase" "Nancy Pelosi" 0 = some (initRecommendation "QQQ" 0)
    ∧ (processTrade (fun _ => none) stateInit
        { Representative := "Nancy Pelosi", Ticker := "QQQ", Transaction := "Purchase",
          Amount := 0, TransactionDate := "2025-01-02", DisclosureDate := "2025-01-05" }).2 = true
    ∧ (processTrade (fun _ => none) stateInit
        { Representative := "Nancy Pelosi", Ticker := "QQQ", Transaction := "Purchase",
          Amount := 0, TransactionDate := "2025-01-02", DisclosureDate := "2025-01-05" }).1.storedRecs
      = [] := by
  refine ⟨?_, ?_, ?_⟩ <;> with_unfolding_all rfl

/-- Witness for the amended C2: the Scenario 1 trade passes the gate with
confidence 0.9, and is both dispatched and persisted. -/
theorem dispatch_gate_amended_witness :
    (processTrade (fun _ => none) stateInit
        { Representative := "Nancy Pelosi", Ticker := "NVDA", Transaction := "Purchase",
          Amount := 2000000, TransactionDate := "2025-01-02", DisclosureDate := "2025-01-05" }).1.dispatched
      = [] ++ (if ({ initRecommendation "NVDA" 0 with
                      action := "BUY", recommendedAmount := 150, sharesToTrade := 3/2,
                      reason := buyReason "Nancy Pelosi" 2000000 (1/5) (35/100),
                      confidence := 9/10 } : Recommendation).action ≠ "HOLD"
                  ∧ ({ initRecommendation "NVDA" 0 with
                      action := "BUY", recommendedAmount := 150, sharesToTrade := 3/2,
                      reason := buyReason "Nancy Pelosi" 2000000 (1/5) (35/100),
                      confidence := 9/10 } : Recommendation).confidence > 6/10
                then [{ initRecommendation "NVDA" 0 with
                        action := "BUY", recommendedAmount := 150, sharesToTrade := 3/2,
                        reason := buyReason "Nancy Pelosi" 2000000 (1/5) (35/100),
                        confidence := 9/10 }] else [])
    ∧ (processTrade (fun _ => none) stateInit
        { Representative := "Nancy Pelosi", Ticker := "NVDA", Transaction := "Purchase",
          Amount := 2000000, TransactionDate := "2025-01-02", DisclosureDate := "2025-01-05" }).1.storedRecs
      = [] ++ (if ({ initRecommendation "NVDA" 0 with
                      action := "BUY", recommendedAmount := 150, sharesToTrade := 3/2,
                      reason := buyReason "Nancy Pelosi" 2000000 (1/5) (35/100),
                      confidence := 9/10 } : Recommendation).action ≠ "HOLD"
                  ∧ ({ initRecommendation "NVDA" 0 with
                      action := "BUY", recommendedAmount := 150, sharesToTrade := 3/2,
                      reason := buyReason "Nancy Pelosi" 2000000 (1/5) (35/100),
                      confidence := 9/10 } : Recommendation).confidence > 6/10
                then [{ initRecommendation "NVDA" 0 with
                        action := "BUY", recommendedAmount := 150, sharesToTrade := 3/2,
                        reason := buyReason "Nancy Pelosi" 2000000 (1/5) (35/100),
                        confidence := 9/10 }] else []) :=
  dispatch_gate_amended (fun _ => none) stateInit
    { Representative := "Nancy Pelosi", Ticker := "NVDA", Transaction := "Purchase",
      Amount := 2000000, TransactionDate := "2025-01-02", DisclosureDate := "2025-01-05" }
    { initRecommendation "NVDA" 0 with
      action := "BUY", recommendedAmount := 150, sharesToTrade := 3/2,
      reason := buyReason "Nancy Pelosi" 2000000 (1/5) (35/100), confidence := 9/10 }
    rfl rfl (by with_unfolding_all rfl)

/-- C5 counterexample: for a purchase with targetAllocation one half, which lies
in the interval (0,1], the 35 percent ceiling forces newTarget strictly below
the target allocation, and for a sale with targetAllocation 0.01 the 5 percent
floor forces newTarget strictly above it, refuting the claimed monotone bounds
over the full interval (0,1]. -/
theorem newTarget_bounds_counterexample :
    (0:ℚ) < 1/2 ∧ (1/2:ℚ) ≤ 1 ∧ (0:ℚ) ≤ 0 ∧ (0:ℚ) ≤ 1 ∧ (1:ℚ) ≤ 1
    ∧ newTargetPurchase (1/2) (tradeImpactOf 0 1) < 1/2
    ∧ (0:ℚ) < 1/100 ∧ (1/100:ℚ) ≤ 1
    ∧ (1/100:ℚ) < newTargetSale (1/100) (tradeImpactOf 0 1) := by
  norm_num [newTargetPurchase, newTargetSale, tradeImpactOf, min_def, max_def]

/-- C5 amended: the 35 percent ceiling for purchases and the 5 percent floor
for sales hold for every target allocation whatsoever (the binders tAny and
tsAny), and with the target allocation additionally below the ceiling,
respectively above the floor, the claimed monotone bounds hold for every
amount at least 0 and every weight in [0,1]; Scenarios 1 and 2
produce newTarget 0.35 with BUY at confidence 0.9 and newTarget 0.05 with SELL
at confidence 0.8 on the initial portfolio. -/
theorem newTarget_bounds_amended (amount w tp ts tAny tsAny : ℚ)
    (hamt : 0 ≤ amount) (hw0 : 0 ≤ w) (hw1 : w ≤ 1)
    (htp1 : 0 < tp) (htp2 : tp ≤ 35/100)
    (hts1 : 5/100 ≤ ts) (hts2 : ts ≤ 1) :
    newTargetPurchase tAny (tradeImpactOf amount w) ≤ 35/100
    ∧ 5/100 ≤ newTargetSale tsAny (tradeImpactOf amount w)
    ∧ newTargetPurchase tp (tradeImpactOf amount w) ≤ 35/100
    ∧ tp ≤ newTargetPurchase tp (tradeImpactOf amount w)
    ∧ 5/100 ≤ newTargetSale ts (tradeImpactOf amount w)
    ∧ newTargetSale ts (tradeImpactOf amount w) ≤ ts
    ∧ newTargetPurchase (20/100) (tradeImpactOf 2000000 1) = 35/100
    ∧ newTargetSale (10/100) (tradeImpactOf 100000 1) = 5/100
    ∧ calculatePositionAdjustment portfolioInit "NVDA" "Purchase" "Nancy Pelosi" 2000000
        = some { initRecommendation "NVDA" 0 with
                  action := "BUY", recommendedAmount := 150, sharesToTrade := 3/2,
                  reason := buyReason "Nancy Pelosi" 2000000 (1/5) (35/100),
                  confidence := 9/10 }
    ∧ calculatePositionAdjustment portfolioInit "GOOGL" "Sale" "Nancy Pelosi" 100000
        = some { initRecommendation "GOOGL" 0 with
                  action := "SELL", recommendedAmount := 50, sharesToTrade := 1/2,
                  reason := sellReason "Nancy Pelosi" 100000 (1/10) (5/100),
                  confidence := 8/10 } := by
  have himp0 : 0 ≤ tradeImpactOf amount w :=
    le_min (mul_nonneg (div_nonneg hamt (by norm_num)) hw0) (by norm_num)
  refine ⟨min_le_right _ _,
    le_max_right _ _,
    min_le_right _ _,
    le_min (le_add_of_nonneg_right himp0) htp2,
    le_max_right _ _,
    max_le (by linarith) hts1,
    by with_unfolding_all rfl,
    by with_unfolding_all rfl,
    by with_unfolding_all rfl,
    by with_unfolding_all rfl⟩

/-- Witness for the amended C5 at amount 0, weight 1, purchase target 0.2 and
sale target 0.1, with the unconditional ceiling and floor exercised at the
out-of-range targets 0.5 and 0.01. -/
theorem newTarget_bounds_amended_witness :
    newTargetPurchase (1/2) (tradeImpactOf 0 1) ≤ 35/100
    ∧ (5/100 : ℚ) ≤ newTargetSale (1/100) (tradeImpactOf 0 1)
    ∧ newTargetPurchase (20/100) (tradeImpactOf 0 1) ≤ 35/100
    ∧ (20/100 : ℚ) ≤ newTargetPurchase (20/100) (tradeImpactOf 0 1)
    ∧ (5/100 : ℚ) ≤ newTargetSale (10/100) (tradeImpactOf 0 1)
    ∧ newTargetSale (10/100) (tradeImpactOf 0 1) ≤ 10/100
    ∧ newTargetPurchase (20/100) (tradeImpactOf 2000000 1) = 35/100
    ∧ newTargetSale (10/100) (tradeImpactOf 100000 1) = 5/100
    ∧ calculatePositionAdjustment portfolioInit "NVDA" "Purchase" "Nancy Pelosi" 2000000
        = some { initRecommendation "NVDA" 0 with
                  action := "BUY", recommendedAmount := 150, sharesToTrade := 3/2,
                  reason := buyReason "Nancy Pelosi" 2000000 (1/5) (35/100),
                  confidence := 9/10 }
    ∧ calculatePositionAdjustment portfolioInit "GOOGL" "Sale" "Nancy Pelosi" 100000
        = some { initRecommendation "GOOGL" 0 with
                  action := "SELL", recommendedAmount := 50, sharesToTrade := 1/2,
                  reason := sellReason "Nancy Pelosi" 100000 (1/10) (5/100),
                  confidence := 8/10 } :=
  newTarget_bounds_amended 0 1 (20/100) (10/100) (1/2) (1/100)
    (by norm_num) (by norm_num) (by norm_num) (by norm_num)
    (by norm_num) (by norm_num) (by norm_num)

/-- C6 counterexample: a manual-entry trade by the untracked actor John Doe is
not filtered out: it reaches the pipeline, is accepted, and is written to trade
storage, refuting the claim that ingest accepts nothing from a candidate list
containing only untracked trades. -/
theorem untracked_filter_counterexample :
    lookupKey TOP_PERFORMERS "John Doe" = none
    ∧ fetchCongressionalTrades (fun _ => true) "2025-10-12" portfolioInit []
        [{ traderName := "John Doe", symbol := "NVDA", transactionType := "Purchase",
           amount := 5000, tradeDate := "2025-10-01", processed := false }]
      = [{ Representative := "John Doe", Ticker := "NVDA", Transaction := "Purchase",
           Amount := 5000, TransactionDate := "2025-10-01", DisclosureDate := "2025-10-12" }]
    ∧ (runPipeline (fun _ => none)
        [{ Representative := "John Doe", Ticker := "NVDA", Transaction := "Purchase",
           Amount := 5000, TransactionDate := "2025-10-01", DisclosureDate := "2025-10-12" }]
        stateInit).2
      = [{ Representative := "John Doe", Ticker := "NVDA", Transaction := "Purchase",
           Amount := 5000, TransactionDate := "2025-10-01", DisclosureDate := "2025-10-12" }]
    ∧ (runPipeline (fun _ => none)
        [{ Representative := "John Doe", Ticker := "NVDA", Transaction := "Purchase",
           Amount := 5000, TransactionDate := "2025-10-01", DisclosureDate := "2025-10-12" }]
        stateInit).1.storedTrades
      = [{ traderName := "John Doe", symbol := "NVDA", transactionType := "Purchase",
           amount := 5000, tradeDate := "2025-10-01", disclosureDate := "2025-10-12" }] := by
  refine ⟨rfl, rfl, ?_, ?_⟩ <;> with_unfolding_all rfl

/-- C6 amended: the disclosure-feed adapter filters its candidates to tracked
actors on tracked tickers before ingestion, but a fresh candidate from any
adapter that fails the tracked test is still accepted and persisted to trade
storage by the pipeline; it only bypasses the recommendation computation, so
the recommendation store, the dispatch list and the portfolio are untouched. -/
theorem untracked_filter_amended (recent : RawDisclosure → Bool) (pf : PortfolioRec)
    (feed : List RawDisclosure) (q : String → Option ℚ) (s : PipelineState) (c : Candidate)
    (hnew : hasMatch s.storedTrades c = false)
    (huntrk : ((lookupKey TOP_PERFORMERS c.Representative).isSome
        && (lookupKey s.pfState.positions c.Ticker).isSome) = false) :
    (∀ c2 ∈ fetchHouseStockWatcher recent pf feed,
        (lookupKey TOP_PERFORMERS c2.Representative).isSome = true
        ∧ (lookupKey pf.positions c2.Ticker).isSome = true)
    ∧ processTrade q s c = ({ s with storedTrades := s.storedTrades ++ [mkRow c] }, true) := by
  constructor
  · intro c2 hc2
    unfold fetchHouseStockWatcher at hc2
    obtain ⟨-, hpred⟩ := List.mem_filter.mp hc2
    simp only [Bool.and_eq_true] at hpred
    exact ⟨hpred.1.2, hpred.2⟩
  · unfold processTrade
    rw [if_neg (by simp [hnew]), if_neg (by simp [huntrk])]

/-- Witness for the amended C6: the John Doe manual trade is persisted with the
rest of the state unchanged, and an empty feed trivially satisfies the
feed-filter conjunct. -/
theorem untracked_filter_amended_witness :
    processTrade (fun _ => none) stateInit
        { Representative := "John Doe", Ticker := "NVDA", Transaction := "Purchase",
          Amount := 5000, TransactionDate := "2025-10-01", DisclosureDate := "2025-10-12" }
      = ({ stateInit with storedTrades := stateInit.storedTrades
            ++ [mkRow { Representative := "John Doe", Ticker := "NVDA",
                        Transaction := "Purchase", Amount := 5000,
                        TransactionDate := "2025-10-01", DisclosureDate := "2025-10-12" }] },
         true) :=
  (untracked_filter_amended (fun _ => true) portfolioInit [] (fun _ => none) stateInit
    { Representative := "John Doe", Ticker := "NVDA", Transaction := "Purchase",
      Amount := 5000, TransactionDate := "2025-10-01", DisclosureDate := "2025-10-12" }
    rfl rfl).2

/-- C10: an unrecognized transaction kind yields the HOLD recommendation with
zero confidence (and no failure: a recommendation is still returned); moreover
every HOLD result carries recommendedAmount 0, sharesToTrade 0 and
confidence 0, and every BUY or SELL result carries recommendedAmount
strictly above 10. -/
theorem unknown_action_holds (pf : PortfolioRec) (symbol traderAction traderName : String)
    (amount : ℚ) (position : Position)
    (hpos : lookupKey pf.positions symbol = some position)
    (ha : traderAction ≠ "Purchase" ∧ traderAction ≠ "Buy"
        ∧ traderAction ≠ "Sale" ∧ traderAction ≠ "Sell") :
    calculatePositionAdjustment pf symbol traderAction traderName amount
        = some (initRecommendation symbol position.currentPrice)
    ∧ ∀ (a2 : String) (rec : Recommendation),
        calculatePositionAdjustment pf symbol a2 traderName amount = some rec →
          ((rec.action = "HOLD" →
              rec.recommendedAmount = 0 ∧ rec.sharesToTrade = 0 ∧ rec.confidence = 0)
           ∧ ((rec.action = "BUY" ∨ rec.action = "SELL") → rec.recommendedAmount > 10)) := by
  constructor
  · unfold calculatePositionAdjustment
    rw [hpos]
    simp [ha.1, ha.2.1, ha.2.2.1, ha.2.2.2]
  · intro a2 rec h
    unfold calculatePositionAdjustment at h
    rw [hpos] at h
    dsimp only at h
    by_cases hb : a2 = "Purchase" ∨ a2 = "Buy"
    · rw [if_pos hb] at h
      split at h
      next hgt =>
        cases h
        exact ⟨fun habs => by simp at habs, fun _ => by simpa using hgt⟩
      next hgt =>
        cases h
        exact ⟨fun _ => ⟨rfl, rfl, rfl⟩,
          fun habs => by rcases habs with h1 | h1 <;> simp [initRecommendation] at h1⟩
    · rw [if_neg hb] at h
      by_cases hs : a2 = "Sale" ∨ a2 = "Sell"
      · rw [if_pos hs] at h
        split at h
        next hgt =>
          cases h
          exact ⟨fun habs => by simp at habs, fun _ => by simpa using hgt⟩
        next hgt =>
          cases h
          exact ⟨fun _ => ⟨rfl, rfl, rfl⟩,
            fun habs => by rcases habs with h1 | h1 <;> simp [initRecommendation] at h1⟩
      · rw [if_neg hs] at h
        cases h
        exact ⟨fun _ => ⟨rfl, rfl, rfl⟩,
          fun habs => by rcases habs with h1 | h1 <;> simp [initRecommendation] at h1⟩

/-- Witness for C10 at the concrete action Exchange on the QQQ position of the
initial portfolio. -/
theorem unknown_action_holds_witness :
    calculatePositionAdjustment portfolioInit "QQQ" "Exchange" "Nancy Pelosi" 5
      = some (initRecommendation "QQQ" 0) := by
  have h := (unknown_action_holds portfolioInit "QQQ" "Exchange" "Nancy Pelosi" 5
    ⟨0, 25/100, 250, 0⟩ (by rfl) (by decide)).1
  exact h
